import Mathlib

/-!
# Verification of the RUNE spec parser and quality validator

Shallow embedding of `tools/parser.py` and `tools/validate.py`.

Decoded YAML documents are modelled by the inductive type `Val`
(null / bool / int / string / list / mapping); the YAML decoding step
itself (`yaml.safe_load`) is treated as an oracle: functions that in the
source decode a text receive the decode outcome as an
`Except String Val` argument (error message, or decoded root value).

Python strings are Lean `String`s; `str.strip()` is `pyStrip`,
`str(value)` is `pyStr`, truthiness is `Val.truthy`.  Python dicts are
ordered association lists (`List (String × Val)`), looked up by first
match, matching dict key uniqueness.

The one place the validator can raise (a `TypeError` from
`re.match` applied to a non-string truthy `meta.name`) is modelled by
returning `Except.error`; everything else in the two modules is total.
-/

namespace Rune

/-! ## Python string primitives -/

/-- The characters of a Python string after `str.strip()`:
drop whitespace from the front, then from the back. -/
def pyStripChars (l : List Char) : List Char :=
  ((l.dropWhile Char.isWhitespace).reverse.dropWhile Char.isWhitespace).reverse

/-- Python `str.strip()`. -/
def pyStrip (s : String) : String :=
  String.mk (pyStripChars s.data)

/-- Does `needle` start `hay`? (helper for Python `in` on strings). -/
def startsWithChars : List Char → List Char → Bool
  | _, [] => true
  | [], _ :: _ => false
  | c :: cs, d :: ds => c == d && startsWithChars cs ds

/-- Python `needle in hay` for strings, on character lists. -/
def containsChars : List Char → List Char → Bool
  | [], needle => needle.isEmpty
  | c :: rest, needle => startsWithChars (c :: rest) needle || containsChars rest needle

/-- Python `needle in hay` substring test. -/
def strContains (hay needle : String) : Bool :=
  containsChars hay.data needle.data

/-! ## Decoded YAML values -/

/-- A decoded YAML value (the possible results of `yaml.safe_load`
relevant to this code base). -/
inductive Val where
  | vnull : Val
  | vbool : Bool → Val
  | vint : Int → Val
  | vstr : String → Val
  | vlist : List Val → Val
  | vmap : List (String × Val) → Val

/-- Python `type(x).__name__` for decoded values. -/
def Val.typeName : Val → String
  | .vnull => "NoneType"
  | .vbool _ => "bool"
  | .vint _ => "int"
  | .vstr _ => "str"
  | .vlist _ => "list"
  | .vmap _ => "dict"

/-- Python truthiness of a decoded value. -/
def Val.truthy : Val → Bool
  | .vnull => false
  | .vbool b => b
  | .vint n => n != 0
  | .vstr s => s != ""
  | .vlist xs => !xs.isEmpty
  | .vmap es => !es.isEmpty

/-- Python `x is None`. -/
def Val.isNull : Val → Bool
  | .vnull => true
  | _ => false

/-- Python `repr(value)` for decoded values (string escaping inside
quotes is not reproduced; no claim depends on it). -/
def pyRepr : Val → String
  | .vnull => "None"
  | .vbool b => if b then "True" else "False"
  | .vint n => toString n
  | .vstr s => "\x27" ++ s ++ "\x27"
  | .vlist xs => "[" ++ String.intercalate ", " (xs.attach.map (fun x => pyRepr x.1)) ++ "]"
  | .vmap es => "\x7b" ++ String.intercalate ", "
      (es.attach.map (fun e => "\x27" ++ e.1.1 ++ "\x27: " ++ pyRepr e.1.2)) ++ "\x7d"
decreasing_by
  all_goals simp_wf
  · have h := List.sizeOf_lt_of_mem x.2
    omega
  · have h1 := List.sizeOf_lt_of_mem e.2
    have h2 : sizeOf e.1.2 < sizeOf e.1 := by
      obtain ⟨k, v⟩ := e.1
      simp
    omega

/-- Python `str(value)` for decoded values: identity on strings,
`repr` otherwise. -/
def pyStr : Val → String
  | .vstr s => s
  | v => pyRepr v

/-- Ordered association-list lookup (Python `key in dict` / `dict[key]`). -/
def lookup : List (String × Val) → String → Option Val
  | [], _ => none
  | (k, v) :: rest, key => if k = key then some v else lookup rest key

/-- Python `dict.get(key, dflt)`. -/
def getV (data : List (String × Val)) (key : String) (dflt : Val) : Val :=
  match lookup data key with
  | some v => v
  | none => dflt

/-! ## Shared constants (from both `tools/parser.py` and `tools/validate.py`).

The Python sources hold `REQUIRED_FIELDS`, `OPTIONAL_FIELDS` and
`SUPPORTED_LANGUAGES` as sets; iteration order over a Python `str` set is
unspecified, so we fix the literal order of the source.  No claim depends
on the relative order of the entries produced by iterating these sets. -/

def REQUIRED_FIELDS : List String :=
  ["meta", "RUNE", "SIGNATURE", "INTENT", "BEHAVIOR", "TESTS"]

def REQUIRED_META_FIELDS : List String := ["name", "language"]

def OPTIONAL_FIELDS : List String :=
  ["CONSTRAINTS", "EDGE_CASES", "DEPENDENCIES", "EXAMPLES", "COMPLEXITY"]

def LIST_FIELDS : List String :=
  ["BEHAVIOR", "TESTS", "CONSTRAINTS", "EDGE_CASES", "DEPENDENCIES", "EXAMPLES"]

def SUPPORTED_LANGUAGES : List String :=
  ["python", "typescript", "javascript", "go", "rust", "java",
   "csharp", "cpp", "c", "ruby", "php", "swift", "kotlin"]

/-- `IDENTIFIER_RE.match(s)` for the pattern `^[a-zA-Z_][a-zA-Z0-9_]*$`. -/
def isIdentifier (s : String) : Bool :=
  match s.data with
  | [] => false
  | c :: cs => (c.isAlpha || c = '_') && cs.all (fun d => d.isAlpha || d.isDigit || d = '_')

/-! ## Quality Validator (`tools/validate.py`) -/

/-- Per-field entry of the report's `field_summary`. -/
structure FieldInfo where
  present : Bool
  count : Option Nat := none
  keys : Option (List String) := none

/-- The report dict returned by `validate_spec` / `validate_file`.
`summary` and `filepath` are `Option`s because the corresponding dict
keys are absent on some paths of the source. -/
structure Report where
  valid : Bool
  errors : List String
  warnings : List String
  suggestions : List String
  field_summary : List (String × FieldInfo)
  summary : Option String := none
  filepath : Option String := none

/-- `f"Unrecognized language '{lang}' (supported: {', '.join(sorted(SUPPORTED_LANGUAGES))})"`. -/
def unrecognizedLanguageMsg (lang : Val) : String :=
  "Unrecognized language \x27" ++ pyStr lang ++ "\x27 (supported: " ++
    String.intercalate ", " (SUPPORTED_LANGUAGES.mergeSort (fun a b => decide (a ≤ b))) ++ ")"

/-- Membership test `lang not in SUPPORTED_LANGUAGES` (negated): a Python
`in` over a set of strings is `False` for every non-string value. -/
def langSupported : Val → Bool
  | .vstr s => SUPPORTED_LANGUAGES.contains s
  | _ => false

/-- Required-field presence errors ("Missing required field: X"). -/
def reqErrors (data : List (String × Val)) : List String :=
  REQUIRED_FIELDS.filterMap fun f =>
    if (lookup data f).isSome then none else some ("Missing required field: " ++ f)

/-- The `field_summary` entry recorded for a field. -/
def fieldInfoFor (data : List (String × Val)) (f : String) : FieldInfo :=
  match lookup data f with
  | none => { present := false }
  | some v =>
    { present := true
      count :=
        if LIST_FIELDS.contains f then
          match v with
          | Val.vlist xs => some xs.length
          | _ => none
        else none
      keys :=
        if f = "COMPLEXITY" then
          match v with
          | Val.vmap es => some (es.map Prod.fst)
          | _ => none
        else none }

/-- The full `field_summary`: required fields (first loop), then
optional fields (second loop), in loop order. -/
def fieldSummary (data : List (String × Val)) : List (String × FieldInfo) :=
  REQUIRED_FIELDS.map (fun f => (f, fieldInfoFor data f)) ++
    OPTIONAL_FIELDS.map (fun f => (f, fieldInfoFor data f))

/-- The `meta` section checks: errors and warnings, or a raised
`TypeError` when `re.match` is applied to a truthy non-string name. -/
def metaChecks (data : List (String × Val)) : Except String (List String × List String) :=
  match getV data "meta" Val.vnull with
  | Val.vmap m =>
    let errs :=
      (if (lookup m "name").isSome then [] else ["Missing required meta field: meta.name"]) ++
      (if (lookup m "language").isSome then [] else ["Missing required meta field: meta.language"])
    let lang := getV m "language" (Val.vstr "")
    let langW :=
      if lang.truthy && !(langSupported lang) then [unrecognizedLanguageMsg lang] else []
    let name := getV m "name" (Val.vstr "")
    if name.truthy then
      match name with
      | Val.vstr s =>
        Except.ok (errs, langW ++
          (if isIdentifier s then []
           else ["meta.name \x27" ++ s ++ "\x27 is not a valid identifier"]))
      | _ => Except.error "TypeError: expected string or bytes-like object"
    else
      Except.ok (errs, langW)
  | Val.vnull => Except.ok ([], [])
  | _ => Except.ok (["meta must be a mapping (dict)"], [])

/-- The `RUNE` field warning. -/
def runeWarnings (data : List (String × Val)) : List String :=
  let rune_name := getV data "RUNE" (Val.vstr "")
  if rune_name.truthy && !(isIdentifier (pyStr rune_name)) then
    ["RUNE value \x27" ++ pyStr rune_name ++ "\x27 is not a valid identifier"]
  else []

/-- The `SIGNATURE` hard error ("must be a non-empty string"). -/
def sigErrors (data : List (String × Val)) : List String :=
  match lookup data "SIGNATURE" with
  | none => []
  | some (Val.vstr s) => if pyStrip s = "" then ["SIGNATURE must be a non-empty string"] else []
  | some _ => ["SIGNATURE must be a non-empty string"]

/-- The keyword vocabulary searched for in `SIGNATURE`. -/
def SIG_KEYWORDS : List String :=
  ["def ", "func ", "function ", "class ", "fn ", "pub ", "async "]

/-- The `SIGNATURE` keyword warning. -/
def sigWarnings (data : List (String × Val)) : List String :=
  match lookup data "SIGNATURE" with
  | some (Val.vstr s) =>
    if pyStrip s ≠ "" then
      let sig_lower := (pyStrip s).toLower
      if SIG_KEYWORDS.any (fun kw => strContains sig_lower kw) then []
      else ["SIGNATURE may not use target language syntax (no function/class keyword found)"]
    else []
  | _ => []

/-- Period-delimited non-empty segments of a trimmed `INTENT`. -/
def intentSentences (s : String) : List String :=
  (((pyStrip s).splitOn ".").map pyStrip).filter (fun x => x ≠ "")

/-- The `INTENT` conciseness warning. -/
def intentWarnings (data : List (String × Val)) : List String :=
  match lookup data "INTENT" with
  | some (Val.vstr s) =>
    if pyStrip s ≠ "" then
      let n := (intentSentences s).length
      if n > 5 then ["INTENT has " ++ toString n ++ " sentences (recommended: 1-3)"] else []
    else []
  | _ => []

/-- The `INTENT` hard error. -/
def intentErrors (data : List (String × Val)) : List String :=
  match lookup data "INTENT" with
  | none => []
  | some (Val.vstr s) => if pyStrip s = "" then ["INTENT must be a non-empty string"] else []
  | some _ => ["INTENT must be a non-empty string"]

/-- `data.get("BEHAVIOR", [])` viewed as a list, when it is one. -/
def behaviorList (data : List (String × Val)) : Option (List Val) :=
  match getV data "BEHAVIOR" (Val.vlist []) with
  | Val.vlist xs => some xs
  | _ => none

/-- `BEHAVIOR` hard errors. -/
def behaviorErrors (data : List (String × Val)) : List String :=
  match behaviorList data with
  | some xs => if xs.length = 0 then ["BEHAVIOR must have at least one entry"] else []
  | none => ["BEHAVIOR must be a list"]

/-- `BEHAVIOR` WHEN/THEN suggestion. -/
def behaviorSuggestions (data : List (String × Val)) : List String :=
  match behaviorList data with
  | some xs =>
    let has_when_then :=
      xs.any (fun b => strContains (pyStr b) "WHEN" && strContains (pyStr b) "THEN")
    if !has_when_then && xs.length > 0 then
      ["Consider using WHEN/THEN format in BEHAVIOR for clarity"]
    else []
  | none => []

/-- `data.get("TESTS", [])` viewed as a list, when it is one. -/
def testsList (data : List (String × Val)) : Option (List Val) :=
  match getV data "TESTS" (Val.vlist []) with
  | Val.vlist xs => some xs
  | _ => none

/-- `TESTS` hard errors. -/
def testsErrors (data : List (String × Val)) : List String :=
  match testsList data with
  | some xs => if xs.length = 0 then ["TESTS must have at least one test case"] else []
  | none => ["TESTS must be a list"]

/-- `TESTS` count warning (only for 1 or 2 entries). -/
def testsWarnings (data : List (String × Val)) : List String :=
  match testsList data with
  | some xs =>
    if xs.length ≠ 0 ∧ xs.length < 3 then
      ["TESTS has " ++ toString xs.length ++ " cases (recommended minimum: 3)"]
    else []
  | none => []

/-- `TESTS` coverage suggestion, emitted together with the count warning. -/
def testsSuggestions (data : List (String × Val)) : List String :=
  match testsList data with
  | some xs =>
    if xs.length ≠ 0 ∧ xs.length < 3 then
      ["Add test cases for: happy path, boundary conditions, and error cases"]
    else []
  | none => []

/-- Strict-mode warnings for absent optional fields, in loop order. -/
def optMissingWarnings (data : List (String × Val)) : List String :=
  OPTIONAL_FIELDS.filterMap fun f =>
    if (lookup data f).isSome then none
    else some ("Missing optional field: " ++ f ++ " (required in strict mode)")

/-- Strict-mode `EDGE_CASES` / `EXAMPLES` minimum-entry warnings. -/
def strictExtraWarnings (data : List (String × Val)) : List String :=
  (match getV data "EDGE_CASES" (Val.vlist []) with
   | Val.vlist xs =>
     if xs.length < 2 then
       ["EDGE_CASES has " ++ toString xs.length ++ " entries (strict minimum: 2)"]
     else []
   | _ => []) ++
  (match getV data "EXAMPLES" (Val.vlist []) with
   | Val.vlist xs =>
     if xs.length < 1 then ["EXAMPLES should have at least 1 entry in strict mode"] else []
   | _ => [])

/-- The derived one-line summary: parts joined by `". "`. -/
def mkSummary (errors warnings : List String) : String :=
  let parts :=
    (if errors.length = 0 then ["Valid RUNE specification"]
     else ["Invalid: " ++ toString errors.length ++ " error(s)"]) ++
    (if warnings.isEmpty then [] else [toString warnings.length ++ " warning(s)"])
  String.intercalate ". " parts

/-- `validate_spec(content, strict)`.  `decoded` is the outcome of
`yaml.safe_load(content)`.  Returns `Except.error` exactly where the
Python raises (the `TypeError` inside the meta checks). -/
def validate_spec (decoded : Except String Val) (strict : Bool) : Except String Report :=
  match decoded with
  | Except.error e =>
    Except.ok
      { valid := false
        errors := ["Invalid YAML: " ++ e]
        warnings := []
        suggestions := ["Fix the YAML syntax errors and re-validate"]
        field_summary := [] }
  | Except.ok (Val.vmap data) =>
    match metaChecks data with
    | Except.error e => Except.error e
    | Except.ok (metaErrs, metaWarns) =>
      let errors :=
        reqErrors data ++ metaErrs ++ sigErrors data ++ intentErrors data ++
          behaviorErrors data ++ testsErrors data
      let warnings :=
        metaWarns ++ runeWarnings data ++ sigWarnings data ++ intentWarnings data ++
          testsWarnings data ++ (if strict then optMissingWarnings data else []) ++
          (if strict then strictExtraWarnings data else [])
      let suggestions := behaviorSuggestions data ++ testsSuggestions data
      Except.ok
        { valid := errors.isEmpty
          errors := errors
          warnings := warnings
          suggestions := suggestions
          field_summary := fieldSummary data
          summary := some (mkSummary errors warnings) }
  | Except.ok v =>
    Except.ok
      { valid := false
        errors := ["Spec must be a YAML mapping (dict), got " ++ v.typeName]
        warnings := []
        suggestions := ["Ensure the file starts with --- and contains key: value pairs"]
        field_summary := [] }

/-- The filesystem facts `validate_file` consumes about its path:
whether it exists, its textual content, the outcome of decoding that
content, and the path's suffix. -/
structure SpecFile where
  path : String
  suffix : String
  found : Bool
  content : String
  decoded : Except String Val

/-- `validate_file(filepath, strict)`. -/
def validate_file (f : SpecFile) (strict : Bool) : Except String Report :=
  if f.found = false then Except.error ("File not found: " ++ f.path)
  else if pyStrip f.content = "" then
    Except.ok
      { valid := false
        filepath := some f.path
        errors := ["File is empty"]
        warnings := []
        suggestions := ["Add RUNE spec content to the file"]
        field_summary := [] }
  else
    match validate_spec f.decoded strict with
    | Except.error e => Except.error e
    | Except.ok r =>
      let r := { r with filepath := some f.path }
      Except.ok
        (if f.suffix = ".rune" then r
         else { r with warnings :=
            r.warnings ++
              ["File extension is \x27" ++ f.suffix ++ "\x27, expected \x27.rune\x27"] })

/-! ## Parser (`tools/parser.py`) -/

/-- `RUNEComplexity` dataclass. -/
structure RUNEComplexity where
  time : String := ""
  space : String := ""

/-- `RUNEMeta` dataclass.  `extra` is the open mapping of unrecognized
meta keys, preserved verbatim. -/
structure RUNEMeta where
  name : String := ""
  language : String := ""
  version : String := "1.0"
  tags : List String := []
  agent : String := ""
  mcp_server : String := ""
  extra : List (String × Val) := []

/-- `RUNESpec` dataclass. -/
structure RUNESpec where
  meta : RUNEMeta := {}
  rune : String := ""
  signature : String := ""
  intent : String := ""
  behavior : List String := []
  tests : List String := []
  constraints : List String := []
  edge_cases : List String := []
  dependencies : List String := []
  examples : List String := []
  complexity : RUNEComplexity := {}
  raw : List (String × Val) := []

/-- Derived property `name`: `self.rune or self.meta.name`. -/
def RUNESpec.name (s : RUNESpec) : String :=
  if s.rune ≠ "" then s.rune else s.meta.name

/-- Derived property `language`. -/
def RUNESpec.language (s : RUNESpec) : String := s.meta.language

/-- Derived property `is_async`: `"async " in self.signature`. -/
def RUNESpec.is_async (s : RUNESpec) : Bool := strContains s.signature "async "

/-- Derived property `has_tests`. -/
def RUNESpec.has_tests (s : RUNESpec) : Bool := s.tests.length > 0

/-- Derived property `test_count`. -/
def RUNESpec.test_count (s : RUNESpec) : Nat := s.tests.length

/-- The `meta` sub-dict built by `RUNESpec.to_dict`, in the source's
insertion order (required keys, then `tags`/`agent`/`mcp_server` when
truthy). -/
def RUNESpec.metaDict (s : RUNESpec) : List (String × Val) :=
  [("name", Val.vstr s.meta.name),
   ("language", Val.vstr s.meta.language),
   ("version", Val.vstr s.meta.version)] ++
  (if !s.meta.tags.isEmpty then [("tags", Val.vlist (s.meta.tags.map Val.vstr))] else []) ++
  (if s.meta.agent ≠ "" then [("agent", Val.vstr s.meta.agent)] else []) ++
  (if s.meta.mcp_server ≠ "" then [("mcp_server", Val.vstr s.meta.mcp_server)] else [])

/-- `RUNESpec.to_dict`: serialize back to a plain mapping, in the
source's insertion order. -/
def RUNESpec.to_dict (s : RUNESpec) : List (String × Val) :=
  [("meta", Val.vmap s.metaDict),
   ("RUNE", Val.vstr s.rune),
   ("SIGNATURE", Val.vstr s.signature),
   ("INTENT", Val.vstr s.intent),
   ("BEHAVIOR", Val.vlist (s.behavior.map Val.vstr)),
   ("TESTS", Val.vlist (s.tests.map Val.vstr))] ++
  (if !s.constraints.isEmpty then [("CONSTRAINTS", Val.vlist (s.constraints.map Val.vstr))] else []) ++
  (if !s.edge_cases.isEmpty then [("EDGE_CASES", Val.vlist (s.edge_cases.map Val.vstr))] else []) ++
  (if !s.dependencies.isEmpty then [("DEPENDENCIES", Val.vlist (s.dependencies.map Val.vstr))] else []) ++
  (if !s.examples.isEmpty then [("EXAMPLES", Val.vlist (s.examples.map Val.vstr))] else []) ++
  (if s.complexity.time ≠ "" ∨ s.complexity.space ≠ "" then
    [("COMPLEXITY", Val.vmap
      ((if s.complexity.time ≠ "" then [("time", Val.vstr s.complexity.time)] else []) ++
       (if s.complexity.space ≠ "" then [("space", Val.vstr s.complexity.space)] else [])))]
   else [])

/-- `_to_str_list(value)`: coerce a decoded value to a list of strings. -/
def _to_str_list : Val → List String
  | Val.vnull => []
  | Val.vlist xs => (xs.filter (fun item => !item.isNull)).map (fun item => pyStrip (pyStr item))
  | Val.vstr s => if pyStrip s ≠ "" then [pyStrip s] else []
  | v => [pyStr v]

namespace RUNEParser

/-- The meta keys recognized by `_build_spec`; everything else goes to `extra`. -/
def KNOWN_META_KEYS : List String :=
  ["name", "language", "version", "tags", "agent", "mcp_server"]

/-- The tolerant `if not isinstance(x, dict): x = \x7b\x7d` step of
`_build_spec`: keep a mapping, replace anything else by the empty one. -/
def mapOrEmpty : Val → List (String × Val)
  | Val.vmap es => es
  | _ => []

/-- `RUNEParser._build_spec(data)`: tolerant Spec construction, total. -/
def _build_spec (data : List (String × Val)) : RUNESpec :=
  let raw_meta : List (String × Val) := mapOrEmpty (getV data "meta" (Val.vmap []))
  let meta : RUNEMeta :=
    { name := pyStr (getV raw_meta "name" (Val.vstr ""))
      language := pyStr (getV raw_meta "language" (Val.vstr ""))
      version := pyStr (getV raw_meta "version" (Val.vstr "1.0"))
      tags := _to_str_list (getV raw_meta "tags" Val.vnull)
      agent := pyStr (getV raw_meta "agent" (Val.vstr ""))
      mcp_server := pyStr (getV raw_meta "mcp_server" (Val.vstr ""))
      extra := raw_meta.filter (fun p => !(KNOWN_META_KEYS.contains p.1)) }
  let raw_complexity : List (String × Val) := mapOrEmpty (getV data "COMPLEXITY" (Val.vmap []))
  let complexity : RUNEComplexity :=
    { time := pyStr (getV raw_complexity "time" (Val.vstr ""))
      space := pyStr (getV raw_complexity "space" (Val.vstr "")) }
  { meta := meta
    rune := pyStr (getV data "RUNE" (Val.vstr ""))
    signature := pyStrip (pyStr (getV data "SIGNATURE" (Val.vstr "")))
    intent := pyStrip (pyStr (getV data "INTENT" (Val.vstr "")))
    behavior := _to_str_list (getV data "BEHAVIOR" Val.vnull)
    tests := _to_str_list (getV data "TESTS" Val.vnull)
    constraints := _to_str_list (getV data "CONSTRAINTS" Val.vnull)
    edge_cases := _to_str_list (getV data "EDGE_CASES" Val.vnull)
    dependencies := _to_str_list (getV data "DEPENDENCIES" Val.vnull)
    examples := _to_str_list (getV data "EXAMPLES" Val.vnull)
    complexity := complexity
    raw := data }

/-- `RUNEParser.parse_string(content)`.  `decoded` is the outcome of
`yaml.safe_load(content)`; errors carry the `ParseError` message. -/
def parse_string (content : String) (decoded : Except String Val) : Except String RUNESpec :=
  if pyStrip content = "" then Except.error "Spec content is empty"
  else
    match decoded with
    | Except.error e => Except.error ("Invalid YAML: " ++ e)
    | Except.ok (Val.vmap data) => Except.ok (_build_spec data)
    | Except.ok v => Except.error ("Expected YAML mapping, got " ++ v.typeName)

/-- `RUNEParser.validate(spec)`: minimal structural check, in source
order of the appended error messages. -/
def validate (spec : RUNESpec) : List String :=
  (if spec.meta.name = "" then ["meta.name is required"] else []) ++
  (if spec.meta.language = "" then ["meta.language is required"]
   else if SUPPORTED_LANGUAGES.contains spec.meta.language then []
   else ["Unsupported language: " ++ spec.meta.language]) ++
  (if spec.rune = "" then ["RUNE field is required"] else []) ++
  (if pyStrip spec.signature = "" then ["SIGNATURE is required"] else []) ++
  (if pyStrip spec.intent = "" then ["INTENT is required"] else []) ++
  (if spec.behavior.isEmpty then ["BEHAVIOR must have at least one entry"] else []) ++
  (if spec.tests.isEmpty then ["TESTS must have at least one entry"] else [])

end RUNEParser

/-- Concrete fixture: a fully well-formed spec mapping whose language
is the unsupported "brainfuck" (used to witness the two-tier split). -/
def c2meta : List (String × Val) :=
  [("name", Val.vstr "add"), ("language", Val.vstr "brainfuck")]

/-- The enclosing mapping of the `c2meta` fixture. -/
def c2data : List (String × Val) :=
  [("meta", Val.vmap c2meta),
   ("RUNE", Val.vstr "add"),
   ("SIGNATURE", Val.vstr "def add(a, b)"),
   ("INTENT", Val.vstr "Adds two integers."),
   ("BEHAVIOR", Val.vlist [Val.vstr "WHEN called THEN add"]),
   ("TESTS", Val.vlist [Val.vstr "add(1, 2) == 3"])]

/-! ## Lemmas about Python `strip` -/

theorem dropWhile_self (p : Char → Bool) (l : List Char) :
    (l.dropWhile p).dropWhile p = l.dropWhile p := by
  induction l with
  | nil => rfl
  | cons a t ih =>
    by_cases h : p a
    · simp [List.dropWhile_cons, h, ih]
    · simp [List.dropWhile_cons, h]

/-- Stripping keeps a list that starts and ends with non-whitespace. -/
theorem stripChars_of_ends (c0 c1 : Char) (mid : List Char)
    (h0 : c0.isWhitespace = false) (h1 : c1.isWhitespace = false) :
    pyStripChars (c0 :: (mid ++ [c1])) = c0 :: (mid ++ [c1]) := by
  unfold pyStripChars
  rw [List.dropWhile_cons_of_neg (by simp [h0])]
  rw [show (c0 :: (mid ++ [c1])).reverse = c1 :: (mid.reverse ++ [c0]) by simp]
  rw [List.dropWhile_cons_of_neg (by simp [h1])]
  simp

/-- Stripping keeps a list with no whitespace at all. -/
theorem stripChars_of_all_not_ws (l : List Char)
    (h : ∀ c ∈ l, c.isWhitespace = false) : pyStripChars l = l := by
  have hd : l.dropWhile Char.isWhitespace = l := by
    cases l with
    | nil => rfl
    | cons a t => exact List.dropWhile_cons_of_neg (by simp [h a (by simp)])
  have hr : l.reverse.dropWhile Char.isWhitespace = l.reverse := by
    cases hr : l.reverse with
    | nil => simp
    | cons a t =>
      rw [List.dropWhile_cons_of_neg]
      have : a ∈ l := by
        have : a ∈ l.reverse := by rw [hr]; simp
        simpa using this
      simp [h a this]
  unfold pyStripChars
  rw [hd, hr, List.reverse_reverse]

/-- `strip` is idempotent on character lists. -/
theorem stripChars_idem (l : List Char) :
    pyStripChars (pyStripChars l) = pyStripChars l := by
  set p := Char.isWhitespace with hp
  have hpre : ∀ m : List Char, (m.reverse.dropWhile p).reverse <+: m := by
    intro m
    have h1 : m.reverse.dropWhile p <:+ m.reverse := List.dropWhile_suffix p
    simpa using List.reverse_prefix.mpr h1
  have key : ∀ m : List Char, m.dropWhile p = m →
      ((m.reverse.dropWhile p).reverse).dropWhile p = (m.reverse.dropWhile p).reverse := by
    intro m hm
    cases hs : (m.reverse.dropWhile p).reverse with
    | nil => simp
    | cons a t =>
      have hpf : (a :: t) <+: m := hs ▸ hpre m
      obtain ⟨r, hr⟩ := hpf
      have hpa : p a = false := by
        by_contra hcon
        have hpa' : p a = true := by revert hcon; cases p a <;> simp
        have hdw : m.dropWhile p = (t ++ r).dropWhile p := by
          rw [← hr, List.cons_append, List.dropWhile_cons_of_pos hpa']
        have hlen : m.length ≤ (t ++ r).length := by
          calc m.length = (m.dropWhile p).length := by rw [hm]
            _ = ((t ++ r).dropWhile p).length := by rw [hdw]
            _ ≤ (t ++ r).length := (List.dropWhile_sublist (l := t ++ r) p).length_le
        rw [← hr] at hlen
        simp at hlen
      exact List.dropWhile_cons_of_neg (by simp [hpa])
  have hm0 : (l.dropWhile p).dropWhile p = l.dropWhile p := dropWhile_self p l
  have step1 : (pyStripChars l).dropWhile p = pyStripChars l := key (l.dropWhile p) hm0
  unfold pyStripChars
  rw [show (((l.dropWhile p).reverse.dropWhile p).reverse).dropWhile p
       = ((l.dropWhile p).reverse.dropWhile p).reverse from step1]
  rw [List.reverse_reverse]
  rw [dropWhile_self]

theorem pyStrip_data (s : String) : (pyStrip s).data = pyStripChars s.data := rfl

/-- `str.strip()` is idempotent. -/
theorem pyStrip_idem (s : String) : pyStrip (pyStrip s) = pyStrip s := by
  unfold pyStrip
  rw [show (String.mk (pyStripChars s.data)).data = pyStripChars s.data from rfl]
  rw [stripChars_idem]

theorem pyStrip_eq_self_of_not_ws (s : String)
    (h : ∀ c ∈ s.data, c.isWhitespace = false) : pyStrip s = s := by
  unfold pyStrip
  rw [stripChars_of_all_not_ws s.data h]

/-! ## Decimal representations never contain whitespace -/

theorem digitChar_not_ws (k : Nat) (h : k < 16) :
    (Nat.digitChar k).isWhitespace = false := by
  interval_cases k <;> decide

theorem toDigitsCore_not_ws (fuel : Nat) :
    ∀ (n : Nat) (ds : List Char), (∀ c ∈ ds, c.isWhitespace = false) →
      ∀ c ∈ Nat.toDigitsCore 10 fuel n ds, c.isWhitespace = false := by
  induction fuel with
  | zero => intro n ds hds c hc; exact hds c hc
  | succ f ih =>
    intro n ds hds c hc
    have hd10 : n % 10 < 16 := by
      have := Nat.mod_lt n (y := 10) (by omega)
      omega
    unfold Nat.toDigitsCore at hc
    simp only at hc
    split at hc
    · rcases List.mem_cons.mp hc with h | h
      · subst h; exact digitChar_not_ws _ hd10
      · exact hds c h
    · refine ih _ _ ?_ c hc
      intro d hd
      rcases List.mem_cons.mp hd with h | h
      · subst h; exact digitChar_not_ws _ hd10
      · exact hds d h

theorem natRepr_not_ws (n : Nat) : ∀ c ∈ (Nat.repr n).data, c.isWhitespace = false := by
  intro c hc
  have hrepr : (Nat.repr n).data = Nat.toDigits 10 n := rfl
  rw [hrepr] at hc
  exact toDigitsCore_not_ws (n + 1) n [] (by simp) c hc

theorem intToString_not_ws (n : Int) : ∀ c ∈ (toString n).data, c.isWhitespace = false := by
  intro c hc
  cases n with
  | ofNat m =>
    have h : toString (Int.ofNat m) = Nat.repr m := rfl
    rw [h] at hc
    exact natRepr_not_ws m c hc
  | negSucc m =>
    have h : toString (Int.negSucc m) = "-" ++ Nat.repr (m + 1) := rfl
    rw [h, String.data_append] at hc
    rcases List.mem_append.mp hc with h | h
    · simp at h
      subst h
      decide
    · exact natRepr_not_ws (m + 1) c h


theorem pyStrip_eq_self_of_data_ends (s : String) (c0 c1 : Char) (mid : List Char)
    (h : s.data = c0 :: (mid ++ [c1]))
    (h0 : c0.isWhitespace = false) (h1 : c1.isWhitespace = false) :
    pyStrip s = s := by
  unfold pyStrip
  rw [h, stripChars_of_ends c0 c1 mid h0 h1, ← h]

theorem pyStrip_pyStr_of_not_vstr (v : Val) (hs : ∀ s, v ≠ Val.vstr s) :
    pyStrip (pyStr v) = pyStr v := by
  cases v with
  | vnull =>
    have h : pyStr Val.vnull = "None" := by simp [pyStr, pyRepr]
    rw [h]; decide
  | vbool b =>
    have h : pyStr (Val.vbool b) = if b then "True" else "False" := by simp [pyStr, pyRepr]
    cases b <;> simp at h <;> rw [h] <;> decide
  | vint n =>
    have h : pyStr (Val.vint n) = toString n := by simp [pyStr, pyRepr]
    rw [h]
    exact pyStrip_eq_self_of_not_ws _ (intToString_not_ws n)
  | vstr s => exact absurd rfl (hs s)
  | vlist xs =>
    have h : pyStr (Val.vlist xs)
        = "[" ++ String.intercalate ", " (xs.attach.map (fun x => pyRepr x.1)) ++ "]" := by
      simp [pyStr, pyRepr]
    refine pyStrip_eq_self_of_data_ends _ '[' ']'
      (String.intercalate ", " (xs.attach.map (fun x => pyRepr x.1))).data ?_ (by decide) (by decide)
    rw [h, String.data_append, String.data_append]
    simp
  | vmap es =>
    have h : pyStr (Val.vmap es)
        = "\x7b" ++ String.intercalate ", "
            (es.attach.map (fun e => "\x27" ++ e.1.1 ++ "\x27: " ++ pyRepr e.1.2)) ++ "\x7d" := by
      simp [pyStr, pyRepr]
    refine pyStrip_eq_self_of_data_ends _ '\x7b' '\x7d'
      (String.intercalate ", "
        (es.attach.map (fun e => "\x27" ++ e.1.1 ++ "\x27: " ++ pyRepr e.1.2))).data ?_
      (by decide) (by decide)
    rw [h, String.data_append, String.data_append]
    simp

theorem to_str_list_stripped (v : Val) : ∀ s ∈ _to_str_list v, pyStrip s = s := by
  cases v with
  | vnull => intro s hs; simp [_to_str_list] at hs
  | vlist xs =>
    intro s hs
    simp only [_to_str_list, List.mem_map] at hs
    obtain ⟨item, hmem, heq⟩ := hs
    rw [← heq]
    exact pyStrip_idem _
  | vstr s0 =>
    intro s hs
    simp only [_to_str_list] at hs
    split at hs
    · simp at hs
      rw [hs]
      exact pyStrip_idem _
    · simp at hs
  | vbool b =>
    intro s hs
    simp only [_to_str_list, List.mem_singleton] at hs
    rw [hs]
    exact pyStrip_pyStr_of_not_vstr _ (by intro t h; cases h)
  | vint n =>
    intro s hs
    simp only [_to_str_list, List.mem_singleton] at hs
    rw [hs]
    exact pyStrip_pyStr_of_not_vstr _ (by intro t h; cases h)
  | vmap es =>
    intro s hs
    simp only [_to_str_list, List.mem_singleton] at hs
    rw [hs]
    exact pyStrip_pyStr_of_not_vstr _ (by intro t h; cases h)

theorem to_str_list_map_vstr (l : List String) :
    _to_str_list (Val.vlist (l.map Val.vstr)) = l.map pyStrip := by
  simp only [_to_str_list]
  rw [List.filter_map]
  rw [List.filter_eq_self.mpr (by intro a _; rfl)]
  rw [List.map_map]
  rfl


/-! ## Lookup lemmas for serialized specs -/

theorem to_dict_lookup_RUNE (s : RUNESpec) :
    lookup s.to_dict "RUNE" = some (Val.vstr s.rune) := by
  simp [RUNESpec.to_dict, lookup]

theorem to_dict_lookup_meta (s : RUNESpec) :
    lookup s.to_dict "meta" = some (Val.vmap s.metaDict) := by
  simp [RUNESpec.to_dict, lookup]

theorem to_dict_lookup_TESTS (s : RUNESpec) :
    lookup s.to_dict "TESTS" = some (Val.vlist (s.tests.map Val.vstr)) := by
  simp [RUNESpec.to_dict, lookup]

theorem metaDict_lookup_language (s : RUNESpec) :
    lookup s.metaDict "language" = some (Val.vstr s.meta.language) := by
  simp [RUNESpec.metaDict, lookup]

theorem rebuild_rune (s : RUNESpec) :
    (RUNEParser._build_spec s.to_dict).rune = s.rune := by
  simp [RUNEParser._build_spec, getV, to_dict_lookup_RUNE, pyStr]

theorem rebuild_language (s : RUNESpec) :
    (RUNEParser._build_spec s.to_dict).meta.language = s.meta.language := by
  simp [RUNEParser._build_spec, RUNEParser.mapOrEmpty, getV, to_dict_lookup_meta,
    metaDict_lookup_language, pyStr]

theorem rebuild_tests (s : RUNESpec) :
    (RUNEParser._build_spec s.to_dict).tests = s.tests.map pyStrip := by
  simp [RUNEParser._build_spec, getV, to_dict_lookup_TESTS, to_str_list_map_vstr]


/-! ## Claim theorems -/

/-- C7: a Spec built from a mapping and serialized back via `to_dict`
yields a mapping whose `RUNE` value is the Spec's `rune`, whose
`meta.language` is the Spec's language, and whose `TESTS` list has
exactly `test_count` entries; re-building from that mapping reproduces
the same `rune`, `language` and test count. -/
theorem C7_roundtrip (data : List (String × Val)) :
    lookup (RUNEParser._build_spec data).to_dict "RUNE"
      = some (Val.vstr (RUNEParser._build_spec data).rune) ∧
    (∃ m2, lookup (RUNEParser._build_spec data).to_dict "meta" = some (Val.vmap m2) ∧
      lookup m2 "language" = some (Val.vstr (RUNEParser._build_spec data).meta.language)) ∧
    (∃ ts, lookup (RUNEParser._build_spec data).to_dict "TESTS" = some (Val.vlist ts) ∧
      ts.length = (RUNEParser._build_spec data).test_count) ∧
    (RUNEParser._build_spec (RUNEParser._build_spec data).to_dict).rune
      = (RUNEParser._build_spec data).rune ∧
    (RUNEParser._build_spec (RUNEParser._build_spec data).to_dict).meta.language
      = (RUNEParser._build_spec data).meta.language ∧
    (RUNEParser._build_spec (RUNEParser._build_spec data).to_dict).test_count
      = (RUNEParser._build_spec data).test_count := by
  refine ⟨to_dict_lookup_RUNE _, ⟨_, ⟨to_dict_lookup_meta _, metaDict_lookup_language _⟩⟩,
    ⟨_, ⟨to_dict_lookup_TESTS _, ?_⟩⟩, rebuild_rune _, rebuild_language _, ?_⟩
  · simp [RUNESpec.test_count]
  · simp [RUNESpec.test_count, rebuild_tests]

/-- C8: value coercion `_to_str_list` is idempotent: it is the identity
on a canonical list of already-trimmed strings, and coercing a coercion
result (re-injected as a decoded list of strings) returns it unchanged,
for every decoded value. -/
theorem C8_coercion_idempotent :
    (∀ l : List String, (∀ s ∈ l, pyStrip s = s) →
      _to_str_list (Val.vlist (l.map Val.vstr)) = l) ∧
    (∀ v : Val,
      _to_str_list (Val.vlist ((_to_str_list v).map Val.vstr)) = _to_str_list v) := by
  constructor
  · intro l hl
    rw [to_str_list_map_vstr]
    calc l.map pyStrip = l.map id := List.map_congr_left hl
      _ = l := List.map_id l
  · intro v
    rw [to_str_list_map_vstr]
    calc (_to_str_list v).map pyStrip = (_to_str_list v).map id :=
        List.map_congr_left (to_str_list_stripped v)
      _ = _to_str_list v := List.map_id _

/-- C8 witness: the theorem applied at a concrete canonical list and a
concrete value. -/
theorem C8_coercion_idempotent_witness :
    ((∀ s ∈ ["a", "b c"], pyStrip s = s) ∧
      _to_str_list (Val.vlist (["a", "b c"].map Val.vstr)) = ["a", "b c"]) ∧
    _to_str_list (Val.vlist ((_to_str_list (Val.vstr "  x  ")).map Val.vstr))
      = _to_str_list (Val.vstr "  x  ") :=
  ⟨⟨by decide, C8_coercion_idempotent.1 ["a", "b c"] (by decide)⟩,
   C8_coercion_idempotent.2 (Val.vstr "  x  ")⟩

/-- C1 (as amended): on a successfully decoded non-mapping root,
`validate_spec` short-circuits to an invalid report with exactly one
error, no warnings, exactly one suggestion, and an empty field summary,
in both modes. -/
theorem C1_non_mapping_short_circuit (v : Val) (strict : Bool)
    (hnm : ∀ es, v ≠ Val.vmap es) :
    validate_spec (Except.ok v) strict = Except.ok
      { valid := false
        errors := ["Spec must be a YAML mapping (dict), got " ++ v.typeName]
        warnings := []
        suggestions := ["Ensure the file starts with --- and contains key: value pairs"]
        field_summary := [] } := by
  cases v with
  | vmap es => exact absurd rfl (hnm es)
  | vnull => rfl
  | vbool b => rfl
  | vint n => rfl
  | vstr s => rfl
  | vlist xs => rfl

/-- C1 witness: the amended theorem applied to a decoded list root. -/
theorem C1_non_mapping_short_circuit_witness :
    (∀ es, Val.vlist [] ≠ Val.vmap es) ∧
    validate_spec (Except.ok (Val.vlist [])) false = Except.ok
      { valid := false
        errors := ["Spec must be a YAML mapping (dict), got list"]
        warnings := []
        suggestions := ["Ensure the file starts with --- and contains key: value pairs"]
        field_summary := [] } :=
  ⟨fun _es h => (nomatch h),
   C1_non_mapping_short_circuit (Val.vlist []) false (fun _es h => (nomatch h))⟩

/-- C1 counterexample: the claim says the short-circuit report carries
zero suggestions, but on the decoded list root the report's suggestion
list has exactly one entry. -/
theorem C1_counterexample :
    (validate_spec (Except.ok (Val.vlist [])) false).map Report.suggestions
      = Except.ok ["Ensure the file starts with --- and contains key: value pairs"] ∧
    (validate_spec (Except.ok (Val.vlist [])) false).map Report.suggestions
      ≠ Except.ok [] := by
  constructor
  · rfl
  · intro h
    rw [show (validate_spec (Except.ok (Val.vlist [])) false).map Report.suggestions
        = Except.ok ["Ensure the file starts with --- and contains key: value pairs"] from rfl] at h
    simp at h

/-- C4 counterexample: with `meta` present and null, the claim demands a
hard "meta must be a mapping" error, but the code adds none: the only
errors are the missing-field and empty-list ones. -/
theorem C4_counterexample :
    (validate_spec (Except.ok (Val.vmap [("meta", Val.vnull)])) false).map
        (fun r => r.errors.contains "meta must be a mapping (dict)")
      = Except.ok false := by
  rfl

/-- C4 (as amended): when `meta` is present with a value that is neither
a mapping nor null, `validate_spec` adds the hard error "meta must be a
mapping (dict)". -/
theorem C4_meta_not_mapping_error (data : List (String × Val)) (v : Val) (strict : Bool)
    (hv : lookup data "meta" = some v)
    (hnn : v ≠ Val.vnull)
    (hnm : ∀ es, v ≠ Val.vmap es) :
    (validate_spec (Except.ok (Val.vmap data)) strict).map
        (fun r => decide ("meta must be a mapping (dict)" ∈ r.errors))
      = Except.ok true := by
  have hmc : metaChecks data = Except.ok (["meta must be a mapping (dict)"], []) := by
    unfold metaChecks
    rw [show getV data "meta" Val.vnull = v by simp [getV, hv]]
    cases v with
    | vmap es => exact absurd rfl (hnm es)
    | vnull => exact absurd rfl hnn
    | vbool b => rfl
    | vint n => rfl
    | vstr s => rfl
    | vlist xs => rfl
  simp only [validate_spec, hmc, Except.map]
  simp [List.mem_append]

/-- C4 witness: the amended theorem applied to `meta: 3`. -/
theorem C4_meta_not_mapping_error_witness :
    (lookup [("meta", Val.vint 3)] "meta" = some (Val.vint 3) ∧
      Val.vint 3 ≠ Val.vnull ∧ (∀ es, Val.vint 3 ≠ Val.vmap es)) ∧
    (validate_spec (Except.ok (Val.vmap [("meta", Val.vint 3)])) false).map
        (fun r => decide ("meta must be a mapping (dict)" ∈ r.errors))
      = Except.ok true := by
  refine ⟨⟨rfl, ?_, ?_⟩, ?_⟩
  · intro h; cases h
  · intro es h; cases h
  · exact C4_meta_not_mapping_error [("meta", Val.vint 3)] (Val.vint 3) false rfl
      (fun h => (nomatch h)) (fun _es h => (nomatch h))


theorem intercalate_single (sep a : String) : String.intercalate sep [a] = a := rfl

theorem intercalate_pair (sep a b : String) :
    String.intercalate sep [a, b] = a ++ sep ++ b := rfl

/-- The shape of the derived summary line: the validity part, then the
warning-count part joined by `". "` when warnings exist. -/
theorem mkSummary_eq (errors warnings : List String) :
    mkSummary errors warnings =
      (if errors.isEmpty then "Valid RUNE specification"
       else "Invalid: " ++ toString errors.length ++ " error(s)") ++
      (if warnings.isEmpty then "" else ". " ++ toString warnings.length ++ " warning(s)") := by
  unfold mkSummary
  rcases errors with _ | ⟨e, es⟩ <;> rcases warnings with _ | ⟨w, ws⟩ <;>
    simp [intercalate_single, intercalate_pair, String.append_assoc] <;> rfl


/-- C5 (as amended): `valid` is true exactly when the error list is
empty, for every report `validate_spec` returns; and on mapping-rooted
inputs the summary is "Valid RUNE specification" or
"Invalid: N error(s)", with ". M warning(s)" joined on (period-space,
not comma) when warnings exist, while the short-circuit reports carry
no summary at all. -/
theorem C5_summary_shape (dec : Except String Val) (strict : Bool) (r : Report)
    (h : validate_spec dec strict = Except.ok r) :
    (r.valid = true ↔ r.errors = []) ∧
    (∀ data, dec = Except.ok (Val.vmap data) →
      r.summary = some (
        (if r.errors.isEmpty then "Valid RUNE specification"
         else "Invalid: " ++ toString r.errors.length ++ " error(s)") ++
        (if r.warnings.isEmpty then ""
         else ". " ++ toString r.warnings.length ++ " warning(s)"))) ∧
    ((∀ data, dec ≠ Except.ok (Val.vmap data)) → r.summary = none) := by
  cases dec with
  | error e =>
    simp only [validate_spec] at h
    injection h with h
    subst h
    refine ⟨by simp, ?_, fun _ => rfl⟩
    intro data hdata
    cases hdata
  | ok v =>
    cases v with
    | vmap data =>
      simp only [validate_spec] at h
      rcases hmc : metaChecks data with e' | ⟨me, mw⟩
      · rw [hmc] at h
        cases h
      · rw [hmc] at h
        injection h with h
        subst h
        refine ⟨by simp [List.isEmpty_iff], ?_, ?_⟩
        · intro data2 hdata
          simp only [mkSummary_eq]
        · intro hne
          exact absurd rfl (hne data)
    | vnull =>
      simp only [validate_spec] at h
      injection h with h
      subst h
      refine ⟨by simp, ?_, fun _ => rfl⟩
      intro data hdata
      cases hdata
    | vbool b =>
      simp only [validate_spec] at h
      injection h with h
      subst h
      refine ⟨by simp, ?_, fun _ => rfl⟩
      intro data hdata
      cases hdata
    | vint n =>
      simp only [validate_spec] at h
      injection h with h
      subst h
      refine ⟨by simp, ?_, fun _ => rfl⟩
      intro data hdata
      cases hdata
    | vstr s0 =>
      simp only [validate_spec] at h
      injection h with h
      subst h
      refine ⟨by simp, ?_, fun _ => rfl⟩
      intro data hdata
      cases hdata
    | vlist xs =>
      simp only [validate_spec] at h
      injection h with h
      subst h
      refine ⟨by simp, ?_, fun _ => rfl⟩
      intro data hdata
      cases hdata

/-- C5 witness: the amended theorem applied to a concrete mapping input
(one warning, seven errors, so the summary shows both parts). -/
theorem C5_summary_shape_witness :
    validate_spec (Except.ok (Val.vmap [("RUNE", Val.vstr "my-rune")])) false =
      Except.ok (Report.mk false
        ["Missing required field: meta", "Missing required field: SIGNATURE",
         "Missing required field: INTENT", "Missing required field: BEHAVIOR",
         "Missing required field: TESTS", "BEHAVIOR must have at least one entry",
         "TESTS must have at least one test case"]
        ["RUNE value \x27my-rune\x27 is not a valid identifier"]
        []
        (fieldSummary [("RUNE", Val.vstr "my-rune")])
        (some "Invalid: 7 error(s). 1 warning(s)") none) ∧
    ((Report.mk false
        ["Missing required field: meta", "Missing required field: SIGNATURE",
         "Missing required field: INTENT", "Missing required field: BEHAVIOR",
         "Missing required field: TESTS", "BEHAVIOR must have at least one entry",
         "TESTS must have at least one test case"]
        ["RUNE value \x27my-rune\x27 is not a valid identifier"]
        []
        (fieldSummary [("RUNE", Val.vstr "my-rune")])
        (some "Invalid: 7 error(s). 1 warning(s)") none : Report).valid = true ↔
      (Report.mk false
        ["Missing required field: meta", "Missing required field: SIGNATURE",
         "Missing required field: INTENT", "Missing required field: BEHAVIOR",
         "Missing required field: TESTS", "BEHAVIOR must have at least one entry",
         "TESTS must have at least one test case"]
        ["RUNE value \x27my-rune\x27 is not a valid identifier"]
        []
        (fieldSummary [("RUNE", Val.vstr "my-rune")])
        (some "Invalid: 7 error(s). 1 warning(s)") none : Report).errors = []) := by
  constructor
  · rfl
  · exact (C5_summary_shape (Except.ok (Val.vmap [("RUNE", Val.vstr "my-rune")])) false _ rfl).1

/-- C5 counterexample: the summary joins its parts with ". ", not with
the comma the claim states, and a decode-failure report has no summary
entry at all. -/
theorem C5_counterexample :
    (validate_spec (Except.ok (Val.vmap [("RUNE", Val.vstr "my-rune")])) false).map
        Report.summary = Except.ok (some "Invalid: 7 error(s). 1 warning(s)") ∧
    (validate_spec (Except.ok (Val.vmap [("RUNE", Val.vstr "my-rune")])) false).map
        Report.summary ≠ Except.ok (some "Invalid: 7 error(s), 1 warning(s)") ∧
    (validate_spec (Except.error "boom") false).map Report.summary = Except.ok none := by
  refine ⟨rfl, ?_, rfl⟩
  intro h
  rw [show (validate_spec (Except.ok (Val.vmap [("RUNE", Val.vstr "my-rune")])) false).map
      Report.summary = Except.ok (some "Invalid: 7 error(s). 1 warning(s)") from rfl] at h
  simp at h


/-- C3: `parse_string` fails in exactly three cases — blank content,
decode failure, non-mapping decoded root — and otherwise returns the
tolerantly built Spec; an absent or non-mapping nested `meta` is
silently treated as empty, never an error. -/
theorem C3_parse_string_totality (content : String) (decoded : Except String Val) :
    ((∃ spec, RUNEParser.parse_string content decoded = Except.ok spec) ↔
      pyStrip content ≠ "" ∧ ∃ data, decoded = Except.ok (Val.vmap data)) ∧
    (∀ data, pyStrip content ≠ "" → decoded = Except.ok (Val.vmap data) →
      RUNEParser.parse_string content decoded = Except.ok (RUNEParser._build_spec data)) ∧
    (∀ data, (lookup data "meta" = none ∨
        (∃ v, lookup data "meta" = some v ∧ ∀ es, v ≠ Val.vmap es)) →
      (RUNEParser._build_spec data).meta =
        { name := "", language := "", version := "1.0", tags := [],
          agent := "", mcp_server := "", extra := [] }) := by
  refine ⟨⟨?_, ?_⟩, ?_, ?_⟩
  · rintro ⟨spec, hspec⟩
    unfold RUNEParser.parse_string at hspec
    by_cases hb : pyStrip content = ""
    · rw [if_pos hb] at hspec
      cases hspec
    · rw [if_neg hb] at hspec
      refine ⟨hb, ?_⟩
      cases decoded with
      | error e => cases hspec
      | ok v =>
        cases v with
        | vmap data => exact ⟨data, rfl⟩
        | vnull => cases hspec
        | vbool b => cases hspec
        | vint n => cases hspec
        | vstr s0 => cases hspec
        | vlist xs => cases hspec
  · rintro ⟨hb, data, hdata⟩
    subst hdata
    refine ⟨RUNEParser._build_spec data, ?_⟩
    unfold RUNEParser.parse_string
    rw [if_neg hb]
  · intro data hb hdata
    subst hdata
    unfold RUNEParser.parse_string
    rw [if_neg hb]
  · intro data hmeta
    have hrm : RUNEParser.mapOrEmpty (getV data "meta" (Val.vmap [])) = [] := by
      rcases hmeta with hnone | ⟨v, hv, hnv⟩
      · simp [getV, hnone, RUNEParser.mapOrEmpty]
      · rw [show getV data "meta" (Val.vmap []) = v by simp [getV, hv]]
        cases v with
        | vmap es => exact absurd rfl (hnv es)
        | vnull => rfl
        | vbool b => rfl
        | vint n => rfl
        | vstr s0 => rfl
        | vlist xs => rfl
    simp only [RUNEParser._build_spec, hrm]
    rfl

/-- C3 witness: applied to mapping-rooted content whose `meta` value is
the non-mapping `3`. -/
theorem C3_parse_string_totality_witness :
    (pyStrip "meta: 3" ≠ "" ∧
      RUNEParser.parse_string "meta: 3" (Except.ok (Val.vmap [("meta", Val.vint 3)]))
        = Except.ok (RUNEParser._build_spec [("meta", Val.vint 3)])) ∧
    (lookup [("meta", Val.vint 3)] "meta" = some (Val.vint 3) ∧
      (RUNEParser._build_spec [("meta", Val.vint 3)]).meta =
        { name := "", language := "", version := "1.0", tags := [],
          agent := "", mcp_server := "", extra := [] }) := by
  have hb : pyStrip "meta: 3" ≠ "" := by decide
  refine ⟨⟨hb, ?_⟩, rfl, ?_⟩
  · exact (C3_parse_string_totality "meta: 3" _).2.1 _ hb rfl
  · exact (C3_parse_string_totality "meta: 3"
      (Except.ok (Val.vmap [("meta", Val.vint 3)]))).2.2 _
      (Or.inr ⟨Val.vint 3, rfl, fun _es h => (nomatch h)⟩)


/-- C9: `validate_file` raises FileNotFound when the path does not
exist; on blank content it returns the single-error "File is empty"
report without consulting the decode at all; otherwise it delegates to
`validate_spec`, records the path, and appends the extension warning
exactly when the suffix is not ".rune". -/
theorem C9_validate_file_behavior (f : SpecFile) (strict : Bool) :
    (f.found = false →
      validate_file f strict = Except.error ("File not found: " ++ f.path)) ∧
    (f.found = true → pyStrip f.content = "" →
      ∀ d : Except String Val,
        validate_file { f with decoded := d } strict = Except.ok
          { valid := false, filepath := some f.path, errors := ["File is empty"],
            warnings := [], suggestions := ["Add RUNE spec content to the file"],
            field_summary := [] }) ∧
    (f.found = true → pyStrip f.content ≠ "" →
      ∀ r, validate_spec f.decoded strict = Except.ok r →
        validate_file f strict = Except.ok
          (if f.suffix = ".rune" then { r with filepath := some f.path }
           else { r with
                  filepath := some f.path
                  warnings := r.warnings ++
                    ["File extension is \x27" ++ f.suffix ++ "\x27, expected \x27.rune\x27"] })) := by
  refine ⟨?_, ?_, ?_⟩
  · intro hnf
    unfold validate_file
    rw [if_pos hnf]
  · intro hf hblank d
    unfold validate_file
    simp only [hf]
    rw [if_neg (by simp), if_pos hblank]
  · intro hf hblank r hr
    unfold validate_file
    simp only [hf]
    rw [if_neg (by simp), if_neg hblank, hr]

/-- C9 witness: a present file with blank content, and a present
non-blank file with a wrong suffix. -/
theorem C9_validate_file_behavior_witness :
    validate_file
        { path := "a.rune", suffix := ".rune", found := true, content := "  ",
          decoded := Except.error "ignored" } false
      = Except.ok
        { valid := false, filepath := some "a.rune", errors := ["File is empty"],
          warnings := [], suggestions := ["Add RUNE spec content to the file"],
          field_summary := [] } ∧
    validate_file
        { path := "b.yaml", suffix := ".yaml", found := true, content := "x: 1",
          decoded := Except.ok (Val.vstr "x") } false
      = Except.ok
        { valid := false,
          errors := ["Spec must be a YAML mapping (dict), got str"],
          warnings := ["File extension is \x27.yaml\x27, expected \x27.rune\x27"],
          suggestions := ["Ensure the file starts with --- and contains key: value pairs"],
          field_summary := [], filepath := some "b.yaml" } := by
  constructor
  · exact (C9_validate_file_behavior
      { path := "a.rune", suffix := ".rune", found := true, content := "  ",
        decoded := Except.error "boom" } false).2.1 rfl (by decide) (Except.error "ignored")
  · have h := (C9_validate_file_behavior
      { path := "b.yaml", suffix := ".yaml", found := true, content := "x: 1",
        decoded := Except.ok (Val.vstr "x") } false).2.2 rfl (by decide) _ rfl
    exact h.trans rfl


/-- C10: in strict mode, an entirely absent EDGE_CASES yields both the
missing-optional-field warning and the fewer-than-two-entries warning
(two distinct messages naming EDGE_CASES), and an absent EXAMPLES
likewise yields both its missing-optional warning and its
at-least-one-entry warning. -/
theorem C10_strict_absent_optional_warnings (data : List (String × Val)) (r : Report)
    (h : validate_spec (Except.ok (Val.vmap data)) true = Except.ok r) :
    (lookup data "EDGE_CASES" = none →
      "Missing optional field: EDGE_CASES (required in strict mode)" ∈ r.warnings ∧
      "EDGE_CASES has 0 entries (strict minimum: 2)" ∈ r.warnings ∧
      ("Missing optional field: EDGE_CASES (required in strict mode)" : String) ≠
        "EDGE_CASES has 0 entries (strict minimum: 2)") ∧
    (lookup data "EXAMPLES" = none →
      "Missing optional field: EXAMPLES (required in strict mode)" ∈ r.warnings ∧
      "EXAMPLES should have at least 1 entry in strict mode" ∈ r.warnings) := by
  simp only [validate_spec] at h
  rcases hmc : metaChecks data with e' | ⟨me, mw⟩
  · rw [hmc] at h
    cases h
  · rw [hmc] at h
    injection h with h
    subst h
    constructor
    · intro hec
      refine ⟨?_, ?_, by simp⟩
      · have hmem : "Missing optional field: EDGE_CASES (required in strict mode)" ∈
            optMissingWarnings data := by
          refine List.mem_filterMap.mpr ⟨"EDGE_CASES", ?_, ?_⟩
          · simp [OPTIONAL_FIELDS]
          · simp [hec]
        simp [List.mem_append, hmem]
      · have hmem : "EDGE_CASES has 0 entries (strict minimum: 2)" ∈
            strictExtraWarnings data := by
          unfold strictExtraWarnings
          rw [show getV data "EDGE_CASES" (Val.vlist []) = Val.vlist [] by simp [getV, hec]]
          exact List.mem_append.mpr (Or.inl (by decide))
        simp [List.mem_append, hmem]
    · intro hex
      constructor
      · have hmem : "Missing optional field: EXAMPLES (required in strict mode)" ∈
            optMissingWarnings data := by
          refine List.mem_filterMap.mpr ⟨"EXAMPLES", ?_, ?_⟩
          · simp [OPTIONAL_FIELDS]
          · simp [hex]
        simp [List.mem_append, hmem]
      · have hmem : "EXAMPLES should have at least 1 entry in strict mode" ∈
            strictExtraWarnings data := by
          unfold strictExtraWarnings
          rw [show getV data "EXAMPLES" (Val.vlist []) = Val.vlist [] by simp [getV, hex]]
          exact List.mem_append.mpr (Or.inr (by decide))
        simp [List.mem_append, hmem]

/-- C10 witness: the empty mapping, validated strictly. -/
theorem C10_strict_absent_optional_warnings_witness :
    (validate_spec (Except.ok (Val.vmap [])) true = Except.ok
      { valid := false
        errors := ["Missing required field: meta", "Missing required field: RUNE",
          "Missing required field: SIGNATURE", "Missing required field: INTENT",
          "Missing required field: BEHAVIOR", "Missing required field: TESTS",
          "BEHAVIOR must have at least one entry", "TESTS must have at least one test case"]
        warnings := ["Missing optional field: CONSTRAINTS (required in strict mode)",
          "Missing optional field: EDGE_CASES (required in strict mode)",
          "Missing optional field: DEPENDENCIES (required in strict mode)",
          "Missing optional field: EXAMPLES (required in strict mode)",
          "Missing optional field: COMPLEXITY (required in strict mode)",
          "EDGE_CASES has 0 entries (strict minimum: 2)",
          "EXAMPLES should have at least 1 entry in strict mode"]
        suggestions := []
        field_summary := fieldSummary []
        summary := some "Invalid: 8 error(s). 7 warning(s)" }) ∧
    lookup [] "EDGE_CASES" = none ∧ lookup [] "EXAMPLES" = none ∧
    "Missing optional field: EDGE_CASES (required in strict mode)" ∈
      ["Missing optional field: CONSTRAINTS (required in strict mode)",
       "Missing optional field: EDGE_CASES (required in strict mode)",
       "Missing optional field: DEPENDENCIES (required in strict mode)",
       "Missing optional field: EXAMPLES (required in strict mode)",
       "Missing optional field: COMPLEXITY (required in strict mode)",
       "EDGE_CASES has 0 entries (strict minimum: 2)",
       "EXAMPLES should have at least 1 entry in strict mode"] ∧
    "EDGE_CASES has 0 entries (strict minimum: 2)" ∈
      ["Missing optional field: CONSTRAINTS (required in strict mode)",
       "Missing optional field: EDGE_CASES (required in strict mode)",
       "Missing optional field: DEPENDENCIES (required in strict mode)",
       "Missing optional field: EXAMPLES (required in strict mode)",
       "Missing optional field: COMPLEXITY (required in strict mode)",
       "EDGE_CASES has 0 entries (strict minimum: 2)",
       "EXAMPLES should have at least 1 entry in strict mode"] := by
  have happ := C10_strict_absent_optional_warnings [] _ rfl
  exact ⟨rfl, rfl, rfl, (happ.1 rfl).1, (happ.1 rfl).2.1⟩


/-- C6: strict mode is monotonic: with the same input, the strict run
raises if and only if the non-strict run does, produces the same errors
and suggestions, and its warnings are a superset of the non-strict
warnings. -/
theorem C6_strict_mode_monotonic (dec : Except String Val) :
    ((validate_spec dec true).isOk = (validate_spec dec false).isOk) ∧
    (∀ r0 r1, validate_spec dec false = Except.ok r0 →
      validate_spec dec true = Except.ok r1 →
      r1.errors = r0.errors ∧ r1.suggestions = r0.suggestions ∧
      ∀ w ∈ r0.warnings, w ∈ r1.warnings) := by
  cases dec with
  | error e =>
    refine ⟨rfl, ?_⟩
    intro r0 r1 h0 h1
    simp only [validate_spec] at h0 h1
    injection h0 with h0
    injection h1 with h1
    subst h0
    subst h1
    exact ⟨rfl, rfl, fun w hw => hw⟩
  | ok v =>
    cases v with
    | vmap data =>
      rcases hmc : metaChecks data with e' | ⟨me, mw⟩
      · refine ⟨by simp [validate_spec, hmc, Except.isOk, Except.toBool], ?_⟩
        intro r0 r1 h0 h1
        simp only [validate_spec, hmc] at h0
        cases h0
      · refine ⟨by simp [validate_spec, hmc, Except.isOk, Except.toBool], ?_⟩
        intro r0 r1 h0 h1
        simp only [validate_spec, hmc] at h0 h1
        injection h0 with h0
        injection h1 with h1
        subst h0
        subst h1
        refine ⟨rfl, rfl, ?_⟩
        intro w hw
        simp at hw ⊢
        tauto
    | vnull =>
      refine ⟨rfl, ?_⟩
      intro r0 r1 h0 h1
      simp only [validate_spec] at h0 h1
      injection h0 with h0
      injection h1 with h1
      subst h0
      subst h1
      exact ⟨rfl, rfl, fun w hw => hw⟩
    | vbool b =>
      refine ⟨rfl, ?_⟩
      intro r0 r1 h0 h1
      simp only [validate_spec] at h0 h1
      injection h0 with h0
      injection h1 with h1
      subst h0
      subst h1
      exact ⟨rfl, rfl, fun w hw => hw⟩
    | vint n =>
      refine ⟨rfl, ?_⟩
      intro r0 r1 h0 h1
      simp only [validate_spec] at h0 h1
      injection h0 with h0
      injection h1 with h1
      subst h0
      subst h1
      exact ⟨rfl, rfl, fun w hw => hw⟩
    | vstr s0 =>
      refine ⟨rfl, ?_⟩
      intro r0 r1 h0 h1
      simp only [validate_spec] at h0 h1
      injection h0 with h0
      injection h1 with h1
      subst h0
      subst h1
      exact ⟨rfl, rfl, fun w hw => hw⟩
    | vlist xs =>
      refine ⟨rfl, ?_⟩
      intro r0 r1 h0 h1
      simp only [validate_spec] at h0 h1
      injection h0 with h0
      injection h1 with h1
      subst h0
      subst h1
      exact ⟨rfl, rfl, fun w hw => hw⟩

/-- C6 witness: both modes applied to one decode failure. -/
theorem C6_strict_mode_monotonic_witness :
    validate_spec (Except.error "bad") false = Except.ok
      (Report.mk false ["Invalid YAML: bad"] []
        ["Fix the YAML syntax errors and re-validate"] [] none none) ∧
    validate_spec (Except.error "bad") true = Except.ok
      (Report.mk false ["Invalid YAML: bad"] []
        ["Fix the YAML syntax errors and re-validate"] [] none none) ∧
    ((Report.mk false ["Invalid YAML: bad"] []
        ["Fix the YAML syntax errors and re-validate"] [] none none).errors =
      (Report.mk false ["Invalid YAML: bad"] []
        ["Fix the YAML syntax errors and re-validate"] [] none none).errors ∧
     (Report.mk false ["Invalid YAML: bad"] []
        ["Fix the YAML syntax errors and re-validate"] [] none none).suggestions =
      (Report.mk false ["Invalid YAML: bad"] []
        ["Fix the YAML syntax errors and re-validate"] [] none none).suggestions ∧
     ∀ w ∈ (Report.mk false ["Invalid YAML: bad"] []
        ["Fix the YAML syntax errors and re-validate"] [] none none).warnings,
       w ∈ (Report.mk false ["Invalid YAML: bad"] []
        ["Fix the YAML syntax errors and re-validate"] [] none none).warnings) :=
  ⟨rfl, rfl, (C6_strict_mode_monotonic (Except.error "bad")).2 _ _ rfl rfl⟩


/-- C2: on a spec whose `meta.language` is a non-empty string outside
the supported set, with every other required field well-formed, the
Parser's structural `validate` reports a hard "Unsupported language"
error while the Quality Validator stays `valid = true` and only emits
the unrecognized-language warning. -/
theorem C2_unsupported_language_two_tiers
    (data m : List (String × Val)) (l nm sg it : String) (rv : Val) (bs ts : List Val)
    (hm : lookup data "meta" = some (Val.vmap m))
    (hname : lookup m "name" = some (Val.vstr nm))
    (hlang : lookup m "language" = some (Val.vstr l))
    (hl1 : l ≠ "")
    (hl2 : SUPPORTED_LANGUAGES.contains l = false)
    (hrune : lookup data "RUNE" = some rv)
    (hsig : lookup data "SIGNATURE" = some (Val.vstr sg)) (hsg : pyStrip sg ≠ "")
    (hint : lookup data "INTENT" = some (Val.vstr it)) (hit : pyStrip it ≠ "")
    (hbeh : lookup data "BEHAVIOR" = some (Val.vlist bs)) (hbs : bs ≠ [])
    (htst : lookup data "TESTS" = some (Val.vlist ts)) (hts : ts ≠ []) :
    ("Unsupported language: " ++ l) ∈ RUNEParser.validate (RUNEParser._build_spec data) ∧
    (∃ r, validate_spec (Except.ok (Val.vmap data)) false = Except.ok r ∧
      r.valid = true ∧ unrecognizedLanguageMsg (Val.vstr l) ∈ r.warnings) := by
  have hlangspec : (RUNEParser._build_spec data).meta.language = l := by
    simp [RUNEParser._build_spec, RUNEParser.mapOrEmpty, getV, hm, hlang, pyStr]
  have hcon : ¬ SUPPORTED_LANGUAGES.contains l = true := by
    rw [hl2]
    exact Bool.false_ne_true
  have hnotmem : l ∉ SUPPORTED_LANGUAGES := by
    intro hmem
    exact hcon (List.elem_eq_true_of_mem hmem)
  constructor
  · unfold RUNEParser.validate
    rw [hlangspec, if_neg hl1, if_neg hcon]
    simp [List.mem_append, hnotmem]
  · have hreq : reqErrors data = [] := by
      simp [reqErrors, REQUIRED_FIELDS, hm, hrune, hsig, hint, hbeh, htst]
    have hmc : ∃ extraw, metaChecks data
        = Except.ok ([], unrecognizedLanguageMsg (Val.vstr l) :: extraw) := by
      by_cases hnm : nm = ""
      · refine ⟨[], ?_⟩
        simp [metaChecks, getV, hm, hlang, hname, Val.truthy, langSupported, hl2, hl1,
          hnm, hnotmem]
      · refine ⟨if isIdentifier nm then []
            else ["meta.name \x27" ++ nm ++ "\x27 is not a valid identifier"], ?_⟩
        simp [metaChecks, getV, hm, hlang, hname, Val.truthy, langSupported, hl2, hl1,
          hnm, hnotmem]
    obtain ⟨extraw, hmc⟩ := hmc
    have hse : sigErrors data = [] := by simp [sigErrors, hsig, hsg]
    have hie : intentErrors data = [] := by simp [intentErrors, hint, hit]
    have hbe : behaviorErrors data = [] := by
      simp [behaviorErrors, behaviorList, getV, hbeh, List.length_eq_zero, hbs]
    have hte : testsErrors data = [] := by
      simp [testsErrors, testsList, getV, htst, List.length_eq_zero, hts]
    cases hval : validate_spec (Except.ok (Val.vmap data)) false with
    | error e =>
      simp only [validate_spec, hmc] at hval
      cases hval
    | ok r =>
      refine ⟨r, rfl, ?_, ?_⟩
      · simp only [validate_spec, hmc] at hval
        injection hval with hval
        subst hval
        simp [hreq, hse, hie, hbe, hte]
      · simp only [validate_spec, hmc] at hval
        injection hval with hval
        subst hval
        simp [List.mem_append]


/-- C2 witness: the theorem applied to the concrete "brainfuck" spec. -/
theorem C2_unsupported_language_two_tiers_witness :
    (lookup c2data "meta" = some (Val.vmap c2meta) ∧
     lookup c2meta "name" = some (Val.vstr "add") ∧
     lookup c2meta "language" = some (Val.vstr "brainfuck") ∧
     ("brainfuck" : String) ≠ "" ∧
     SUPPORTED_LANGUAGES.contains "brainfuck" = false ∧
     lookup c2data "RUNE" = some (Val.vstr "add") ∧
     lookup c2data "SIGNATURE" = some (Val.vstr "def add(a, b)") ∧
     pyStrip "def add(a, b)" ≠ "" ∧
     lookup c2data "INTENT" = some (Val.vstr "Adds two integers.") ∧
     pyStrip "Adds two integers." ≠ "" ∧
     lookup c2data "BEHAVIOR" = some (Val.vlist [Val.vstr "WHEN called THEN add"]) ∧
     [Val.vstr "WHEN called THEN add"] ≠ ([] : List Val) ∧
     lookup c2data "TESTS" = some (Val.vlist [Val.vstr "add(1, 2) == 3"]) ∧
     [Val.vstr "add(1, 2) == 3"] ≠ ([] : List Val)) ∧
    (("Unsupported language: " ++ "brainfuck")
        ∈ RUNEParser.validate (RUNEParser._build_spec c2data) ∧
     (∃ r, validate_spec (Except.ok (Val.vmap c2data)) false = Except.ok r ∧
       r.valid = true ∧ unrecognizedLanguageMsg (Val.vstr "brainfuck") ∈ r.warnings)) := by
  refine ⟨⟨rfl, rfl, rfl, by decide, by decide, rfl, rfl, by decide, rfl, by decide,
    rfl, by simp, rfl, by simp⟩, ?_⟩
  exact C2_unsupported_language_two_tiers c2data c2meta "brainfuck" "add"
    "def add(a, b)" "Adds two integers." (Val.vstr "add")
    [Val.vstr "WHEN called THEN add"] [Val.vstr "add(1, 2) == 3"]
    rfl rfl rfl (by decide) (by decide) rfl rfl (by decide) rfl (by decide)
    rfl (by simp) rfl (by simp)

end Rune
